import Mathlib

/-!
Verification development for the `safe_intersection` reservation scheduler
(`src/ltms/scripts/server.py` and `src/ltms/scripts/fake_server.py`).

Shallow embedding conventions:
* timestamps (`datetime`) and durations are rationals, measured in seconds;
* the session table (`self.sessions`, a Python dict guarded by a lock) is an
  association list with Python-dict update semantics (overwrite in place,
  append fresh keys at the end);
* each service handler is a pure function from the store and the request
  inputs to the new store and the response; the wall-clock reads
  (`datetime.now()`) inside one handler are modelled by a single `now`
  parameter per call;
* the external safety-analysis engine (`Solver.run_analysis`, out of scope
  per the spec) is modelled by passing its output record as a parameter;
* a Python exception that is not caught by the handler is modelled by an
  `Option`-valued result (`none` = the call raises).
-/

namespace LTMS

/-- `Server.TIME_HORIZON = 15` (server.py line 110). -/
def TIME_HORIZON : ℚ := 15

/-- `Server.TIME_STEP = 0.2` (server.py line 111). -/
def TIME_STEP : ℚ := 1/5

/-- `Server.MAX_WINDOW_ENTRY = 2` (server.py line 113). -/
def MAX_WINDOW_ENTRY : ℚ := 2

/-- `Server.SESSION_TIMEOUT = timedelta(seconds=30)` (server.py line 115), in seconds. -/
def SESSION_TIMEOUT : ℚ := 30

/-- `Server.TRANSIT_TIME = 15` (server.py line 116). -/
def TRANSIT_TIME : ℚ := 15

/-- `Server.COMPUTE_TIME = 10` (server.py line 117). -/
def COMPUTE_TIME : ℚ := 10

/-- `_LOCATIONS = ['left', 'top', 'right', 'bottom']` (server.py line 100). -/
def BASE_LOCATIONS : List String := ["left", "top", "right", "bottom"]

/-- `Server.ENTRY_LOCATIONS = _LOCATIONS + ['init']` (server.py line 119). -/
def ENTRY_LOCATIONS : List String := BASE_LOCATIONS ++ ["init"]

/-- `Server.EXIT_LOCATIONS = _LOCATIONS` (server.py line 120). -/
def EXIT_LOCATIONS : List String := BASE_LOCATIONS

/-- Keys of `Server.PERMITTED_ROUTES` (server.py lines 101-105 and 122-125):
all ordered pairs of distinct base locations, plus `('init', 'left')`.
Only membership of keys matters to the handlers. -/
def PERMITTED_ROUTES : List (String × String) :=
  (BASE_LOCATIONS.flatMap fun e =>
    (BASE_LOCATIONS.filter fun x => x ≠ e).map fun x => (e, x)) ++ [("init", "left")]

/-- One frame of a safety tube (the per-timestep grid-shaped array).  The
grid contents never influence the scheduler's control flow, so the carrier
is abstract; only frame counts (array shapes along the time axis) matter. -/
structure GridFrame where
  val : ℤ
  deriving DecidableEq, Repr

/-- A frame of `np.ones(...)`, the "safe everywhere" initialization of a
danger field (server.py line 671). -/
def onesFrame : GridFrame := ⟨1⟩

/-- The reservation record stored by `add_reservation` (server.py
lines 623-631): the keyword arguments of the successful `reserve`.
`pass4` is the per-timestep safety tube taken from the analysis result
(`analysis['pass4']`, the only part of `analysis` the server reads back). -/
structure Reservation where
  name : String
  time_ref : ℚ
  entry : String
  exit : String
  earliest_entry : ℚ
  latest_entry : ℚ
  earliest_exit : ℚ
  latest_exit : ℚ
  pass4 : List GridFrame
  deriving DecidableEq, Repr

/-- A session dict as created by `connect_srv` (server.py lines 292-297)
and mutated by `notify_srv` / `add_reservation`.  The empty initial
`reservation={}` is modelled as `none`. -/
structure Session where
  latest_reserve_time : ℚ
  arrival_time : ℚ
  session_timeout : ℚ
  reserved : Bool
  reservation : Option Reservation
  deriving DecidableEq, Repr

/-- `self.sessions`: a Python dict keyed by session id, as an association
list in insertion order. -/
abbrev Store := List (String × Session)

/-- Python dict lookup `self.sessions[sid]` / `sid in self.sessions`
(also `select_session`, server.py lines 255-258). -/
def storeGet (sid : String) : Store → Option Session
  | [] => none
  | (k, v) :: rest => if k = sid then some v else storeGet sid rest

/-- Python dict assignment `self.sessions[sid] = sess` (`sessions_add`,
server.py lines 250-253): overwrite in place if the key exists, else
append at the end. -/
def storeSet (sid : String) (s : Session) : Store → Store
  | [] => [(sid, s)]
  | (k, v) :: rest => if k = sid then (sid, s) :: rest else (k, v) :: storeSet sid s rest

/-- The scan loop of `latest_reserve_time` (server.py lines 336-357),
shared verbatim with fake_server.py lines 246-267.  Returns `none` when the
loop early-returns `datetime.now()` (a reserved session arriving strictly
later than ego), else `some` of the final `num_unreserved_hpv` count, the
accumulator `c` seeding the count. -/
def lrtScan (ego : String) (egoArrival : ℚ) : List (String × Session) → ℕ → Option ℕ
  | [], c => some c
  | (sid, s) :: rest, c =>
    if sid = ego then lrtScan ego egoArrival rest c
    else if s.reserved then
      if 0 < s.arrival_time - egoArrival then none
      else lrtScan ego egoArrival rest c
    else
      if 0 < s.arrival_time - egoArrival then lrtScan ego egoArrival rest c
      else if TIME_HORIZON < -(s.arrival_time - egoArrival) then lrtScan ego egoArrival rest c
      else lrtScan ego egoArrival rest (c + 1)

/-- `Server.latest_reserve_time` (server.py lines 335-361).  On a priority
violation the code returns `datetime.now()`, modelled by the `now`
parameter.  Note the extra `time_needed += self.COMPUTE_TIME  # heuristic
extra time` on line 360. -/
def latest_reserve_time (store : Store) (ego : String) (egoArrival now : ℚ) : ℚ :=
  match lrtScan ego egoArrival store 0 with
  | none => now
  | some c => egoArrival - COMPUTE_TIME * (c + 1) - COMPUTE_TIME

/-- `Server.latest_reserve_time` of fake_server.py (lines 245-270): same
scan, but `time_needed = COMPUTE_TIME * (num_unreserved_hpv + 1)` with no
extra heuristic term. -/
def fake_latest_reserve_time (store : Store) (ego : String) (egoArrival now : ℚ) : ℚ :=
  match lrtScan ego egoArrival store 0 with
  | none => now
  | some c => egoArrival - COMPUTE_TIME * (c + 1)

/-- Response of `connect_srv`: `its_id`, `transit_time`, and
`latest_reserve_time` (left `0` when unset).  `transit_time = -1000`
signals the "Earlier than HPV" rejection. -/
structure ConnectResp where
  its_id : String
  transit_time : ℚ
  latest_reserve_time : ℚ
  deriving DecidableEq, Repr

/-- `Server.connect_srv` (server.py lines 271-303).  `usr_id` is the
caller-supplied id (`req.usr_id`); `its_id` models the freshly generated
`f'its_{secrets.token_hex(4)}'`.  The session is stored under `usr_id`;
the response carries `its_id`. -/
def connect_srv (store : Store) (usr_id its_id : String) (arrival_time now : ℚ) :
    Store × ConnectResp :=
  let session_timeout := arrival_time + SESSION_TIMEOUT
  let lrt := latest_reserve_time store usr_id arrival_time now
  if lrt < now then
    (store, ⟨"", -1000, 0⟩)
  else
    (storeSet usr_id ⟨lrt, arrival_time, session_timeout, false, none⟩ store,
     ⟨its_id, TRANSIT_TIME, lrt⟩)

/-- Response of `notify_srv`: `transit_time` is `TRANSIT_TIME` on success,
`-1000` for "Earlier than HPV", `-2000` for "already reserved", `-3000`
for "Unconnected user". -/
structure NotifyResp where
  transit_time : ℚ
  latest_reserve_time : ℚ
  deriving DecidableEq, Repr

/-- `Server.notify_srv` (server.py lines 305-333). -/
def notify_srv (store : Store) (usr_id : String) (arrival_time now : ℚ) :
    Store × NotifyResp :=
  let lrt := latest_reserve_time store usr_id arrival_time now
  if lrt < now then
    (store, ⟨-1000, 0⟩)
  else
    match storeGet usr_id store with
    | some s =>
      if s.reserved then (store, ⟨-2000, 0⟩)
      else
        (storeSet usr_id
          { s with
            latest_reserve_time := lrt
            arrival_time := arrival_time
            session_timeout := arrival_time + SESSION_TIMEOUT } store,
         ⟨TRANSIT_TIME, lrt⟩)
    | none => (store, ⟨-3000, 0⟩)

/-- The reaper tick `clean_sessions_tmr` (server.py lines 176-181):
`now = datetime.now().replace(microsecond=0)` truncates the wall clock to
whole seconds, then every session with `session_timeout < now` is deleted
from the snapshot. -/
def clean_sessions_tmr (store : Store) (wallNow : ℚ) : Store :=
  store.filter fun p => !decide (p.2.session_timeout < (⌊wallNow⌋ : ℚ))

/-- Python's `round(x, 1)` uses round-half-to-even on the first decimal.
`round_half_even x` is the integer Python's `round(x)` produces for a
rational `x`; Mathlib's `round` rounds halves up, so halves are redirected
through `2 * round (x / 2)`. -/
def round_half_even (x : ℚ) : ℤ :=
  if Int.fract x = 1/2 then 2 * round (x / 2) else round x

/-- Python's `round(x, 1)`: round to one decimal digit. -/
def round1 (x : ℚ) : ℚ := (round_half_even (10 * x) : ℚ) / 10

/-- Python's `%` on numbers with a positive divisor:
`a % b = a - b * floor(a / b)`, the representative in `[0, b)`. -/
def pymod (a b : ℚ) : ℚ := a - b * ⌊a / b⌋

/-- The clamp-and-align step of `reserve` (server.py lines 583-589,
identical in fake_server.py lines 392-398):

    earliest_entry = round(max(req.earliest_entry, 0), 1)
    latest_entry = round(min(req.latest_entry, self.TIME_HORIZON), 1)
    offset = round(floor(earliest_entry) + (earliest_entry % self.TIME_STEP), 1)
    time_ref += timedelta(seconds=offset)
    earliest_entry -= offset
    latest_entry -= offset

Returns `(offset, time_ref, earliest_entry, latest_entry)` after the shift. -/
def align_entry_window (time_ref ee_req le_req : ℚ) : ℚ × ℚ × ℚ × ℚ :=
  let earliest_entry := round1 (max ee_req 0)
  let latest_entry := round1 (min le_req TIME_HORIZON)
  let offset := round1 ((⌊earliest_entry⌋ : ℚ) + pymod earliest_entry TIME_STEP)
  (offset, time_ref + offset, earliest_entry - offset, latest_entry - offset)

/-- `get_reservations` (server.py lines 260-262): the reservations of all
sessions whose `reserved` flag is set.  (In every state the handlers
produce, a reserved session carries a reservation record.) -/
def get_reservations (store : Store) : List (String × Reservation) :=
  store.filterMap fun p =>
    if p.2.reserved then p.2.reservation.map fun r => (p.1, r) else none

/-- NumPy slice assignment `dst[i:] = src` along the time axis
(server.py line 679).  Succeeds when the lengths agree, or when `src` has
length 1 (NumPy broadcasts a length-1 axis); otherwise NumPy raises,
modelled as `none`. -/
def sliceAssignTail (dst src : List GridFrame) (i : ℕ) : Option (List GridFrame) :=
  let m := dst.length - min i dst.length
  if src.length = m then some (dst.take i ++ src)
  else
    match src with
    | [a] => some (dst.take i ++ List.replicate m a)
    | _ => none

/-- NumPy slice assignment `dst[:j] = src` along the time axis
(server.py line 687), with the same shape rules as `sliceAssignTail`. -/
def sliceAssignHead (dst src : List GridFrame) (j : ℕ) : Option (List GridFrame) :=
  let m := min j dst.length
  if src.length = m then some (src ++ dst.drop j)
  else
    match src with
    | [a] => some (List.replicate m a ++ dst.drop j)
    | _ => none

/-- The per-reservation danger field of `resolve_dangers` (server.py
lines 671-687): a "safe everywhere" field of `N` frames
(`np.ones(self.solver.timeline.shape + self.grid.shape)`) with the
overlapping part of the other session's tube spliced in, the overlap
offsets rounded up to the `TIME_STEP` grid by ceiling division.  `N` is
the length of `self.solver.timeline` (the `Solver` class of `ltms_util`
is not part of this repository's sources, so the timeline length is a
parameter of the model).  `none` models the NumPy shape error. -/
def spliceDanger (N : ℕ) (time_ref : ℚ) (r : Reservation) : Option (List GridFrame) :=
  let earliest_overlap := max time_ref r.time_ref
  let latest_overlap := min (time_ref + TIME_HORIZON) (r.time_ref + TIME_HORIZON)
  let danger := List.replicate N onesFrame
  if time_ref < earliest_overlap then
    let i := ⌈(earliest_overlap - time_ref) / TIME_STEP⌉
    let j := ⌈(latest_overlap - r.time_ref) / TIME_STEP⌉
    sliceAssignTail danger (r.pass4.take j.toNat) i.toNat
  else
    let i := ⌈(earliest_overlap - r.time_ref) / TIME_STEP⌉
    let j := ⌈(latest_overlap - time_ref) / TIME_STEP⌉
    sliceAssignHead danger ((r.pass4.drop i.toNat).take j.toNat) j.toNat

/-- The loop of `resolve_dangers` (server.py lines 663-688) over the
reserved sessions: skip non-positive overlaps, splice the rest.  A
raising splice aborts the whole call (`none`). -/
def resolveLoop (N : ℕ) (time_ref : ℚ) :
    List (String × Reservation) → Option (List (String × List GridFrame))
  | [] => some []
  | (sid, r) :: rest =>
    let overlap := min (time_ref + TIME_HORIZON) (r.time_ref + TIME_HORIZON)
      - max time_ref r.time_ref
    if ¬ 0 < overlap then resolveLoop N time_ref rest
    else
      match spliceDanger N time_ref r with
      | none => none
      | some danger =>
        (resolveLoop N time_ref rest).map fun tail => (sid, danger) :: tail

/-- `Server.resolve_dangers` (server.py lines 658-693): one danger field
per reserved session whose window overlaps `[time_ref, time_ref + TIME_HORIZON)`. -/
def resolve_dangers (N : ℕ) (store : Store) (time_ref : ℚ) :
    Option (List (String × List GridFrame)) :=
  resolveLoop N time_ref (get_reservations store)

/-- Failure tags for the reason strings set by `reserve_srv` / `reserve`.
Each constructor stands for one distinct message site in server.py. -/
inductive ReserveReason where
  /-- initial `resp.reason = 'Unknown.'` -/
  | unknown
  /-- `Illegal entry region` -/
  | illegalEntry
  /-- `Illegal exit region` -/
  | illegalExit
  /-- `Illegal route through region` -/
  | illegalRoute
  /-- `Reservation late: ... s too late` -/
  | late
  /-- `Negotiation Failed: Invalid window offsetting` -/
  | invalidOffset
  /-- `Negotiation Failed: Invalid entry window requested` -/
  | invalidWindowSize
  /-- `Negotiation Faild: No time window to enter region` -/
  | noWindow
  /-- empty reason on success -/
  | ok
  deriving DecidableEq, Repr

/-- The `Reserve` service response (numeric fields default to `0` when the
handler returns before setting them). -/
structure ReserveResp where
  success : Bool
  reason : ReserveReason
  time_ref : ℚ
  earliest_entry : ℚ
  latest_entry : ℚ
  earliest_exit : ℚ
  latest_exit : ℚ
  deriving DecidableEq, Repr

/-- A rejected `Reserve` response carrying reason `r`. -/
def failResp (r : ReserveReason) : ReserveResp := ⟨false, r, 0, 0, 0, 0, 0⟩

/-- The `Reserve` request (`req.time_ref` already parsed; the malformed-ISO
branch of the handler is not modelled). -/
structure ReserveReq where
  name : String
  entry : String
  exit : String
  time_ref : ℚ
  earliest_entry : ℚ
  latest_entry : ℚ
  deriving DecidableEq, Repr

/-- The output record of `Solver.run_analysis` consumed by `reserve`
(server.py lines 601-615): refined window bounds and the `pass4` tube.
The solver itself is external to the core (spec section 6). -/
structure AnalysisResult where
  earliest_entry : ℚ
  latest_entry : ℚ
  earliest_exit : ℚ
  latest_exit : ℚ
  pass4 : List GridFrame
  deriving DecidableEq, Repr

/-- `add_reservation` (server.py lines 264-269): if `sid` is present, set
its `reservation` and flip `reserved = True`; absent ids are a silent
no-op (the `select_session` generator yields nothing). -/
def add_reservation (store : Store) (sid : String) (r : Reservation) : Store :=
  match storeGet sid store with
  | none => store
  | some s => storeSet sid { s with reservation := some r, reserved := true } store

/-- `Server.reserve` (server.py lines 568-656).  `result` is the external
solver's output for this call.  The `AssertionError`-guarded body maps
each failed assert to a rejected response with the store untouched; an
exception raised inside `resolve_dangers` is not an `AssertionError` and
propagates (`none`). -/
def reserve (N : ℕ) (store : Store) (sid : String) (req : ReserveReq)
    (result : AnalysisResult) : Option (Store × ReserveResp) :=
  let a := align_entry_window req.time_ref req.earliest_entry req.latest_entry
  let time_ref := a.2.1
  let earliest_entry := a.2.2.1
  let latest_entry := a.2.2.2
  if ¬ (0 ≤ earliest_entry ∧ earliest_entry ≤ latest_entry ∧ latest_entry ≤ TIME_HORIZON) then
    some (store, failResp .invalidOffset)
  else
    let max_window_entry := round1 (min (latest_entry - earliest_entry) MAX_WINDOW_ENTRY)
    if max_window_entry = 0 then some (store, failResp .invalidWindowSize)
    else
      match resolve_dangers N store time_ref with
      | none => none
      | some dangers =>
        -- `dangers` is filtered by the 5-character id head and handed to the
        -- solver (lines 597-610); the solver output is the `result` parameter.
        let _usedDangers := dangers.filter fun p => ¬ p.1.take 5 = sid.take 5
        let earliest_entry := max earliest_entry result.earliest_entry
        let latest_entry := min latest_entry result.latest_entry
        let earliest_exit := result.earliest_exit
        let latest_exit := result.latest_exit
        if ¬ 0 < latest_entry - earliest_entry then some (store, failResp .noWindow)
        else
          some
            (add_reservation store sid
              ⟨req.name, time_ref, req.entry, req.exit, earliest_entry, latest_entry,
               earliest_exit, latest_exit, result.pass4⟩,
             ⟨true, .ok, time_ref, earliest_entry, latest_entry, earliest_exit, latest_exit⟩)

/-- `Server.reserve_srv` (server.py lines 527-566).  An unknown
`req.name` is only logged (lines 538-539) — the handler does not return
there.  The deadline check recomputes `latest_reserve_time` with the
request's `time_ref` as the arrival time. -/
def reserve_srv (N : ℕ) (store : Store) (req : ReserveReq) (now : ℚ)
    (result : AnalysisResult) : Option (Store × ReserveResp) :=
  if ¬ req.entry ∈ ENTRY_LOCATIONS then some (store, failResp .illegalEntry)
  else if ¬ req.exit ∈ EXIT_LOCATIONS then some (store, failResp .illegalExit)
  else if ¬ (req.entry, req.exit) ∈ PERMITTED_ROUTES then some (store, failResp .illegalRoute)
  else
    let lrt := latest_reserve_time store req.name req.time_ref now
    if lrt < now then some (store, failResp .late)
    else reserve N store req.name req result

/-- The window computation of fake_server.py's `reserve` (lines 391-409):
same clamp-and-align, then `earliest_exit = earliest_entry + TRANSIT_TIME`
and `latest_exit = latest_entry + TRANSIT_TIME` with no external solver.
Returns the tuple of values stored into the session on success
(`time_ref, earliest_entry, latest_entry, earliest_exit, latest_exit`),
or `none` when an assert fires. -/
def fake_reserve_window (time_ref ee_req le_req : ℚ) :
    Option (ℚ × ℚ × ℚ × ℚ × ℚ) :=
  let a := align_entry_window time_ref ee_req le_req
  let time_ref := a.2.1
  let earliest_entry := a.2.2.1
  let latest_entry := a.2.2.2
  if ¬ (0 ≤ earliest_entry ∧ earliest_entry ≤ latest_entry ∧ latest_entry ≤ TIME_HORIZON) then
    none
  else
    let max_window_entry := round1 (min (latest_entry - earliest_entry) MAX_WINDOW_ENTRY)
    if max_window_entry = 0 then none
    else
      let earliest_exit := earliest_entry + TRANSIT_TIME
      let latest_exit := latest_entry + TRANSIT_TIME
      if ¬ 0 < latest_entry - earliest_entry then none
      else some (time_ref, earliest_entry, latest_entry, earliest_exit, latest_exit)

/-- The reservation record committed by a successful `reserve` call
(server.py lines 612-631), in terms of the request and the solver output:
the aligned entry bounds tightened by the solver's, exit bounds and tube
straight from the solver. -/
def newReservation (req : ReserveReq) (result : AnalysisResult) : Reservation :=
  let w := align_entry_window req.time_ref req.earliest_entry req.latest_entry
  ⟨req.name, w.2.1, req.entry, req.exit,
   max w.2.2.1 result.earliest_entry, min w.2.2.2 result.latest_entry,
   result.earliest_exit, result.latest_exit, result.pass4⟩

/-- The response returned by a successful `reserve` (server.py lines 635-643). -/
def newResp (req : ReserveReq) (result : AnalysisResult) : ReserveResp :=
  let w := align_entry_window req.time_ref req.earliest_entry req.latest_entry
  ⟨true, .ok, w.2.1, max w.2.2.1 result.earliest_entry, min w.2.2.2 result.latest_entry,
   result.earliest_exit, result.latest_exit⟩

/-- The claim's contender count, following the spec's words (spec section
4.2): other sessions that are unreserved, have `arrivalTime` not later
than ego's, and are at most `TIME_HORIZON` before ego.  This is the
spec-side definition used to compare against `latest_reserve_time`. -/
def contenders_spec (store : Store) (ego : String) (egoArrival : ℚ) : ℕ :=
  store.countP fun p =>
    decide (p.1 ≠ ego ∧ p.2.reserved = false ∧
      p.2.arrival_time ≤ egoArrival ∧ egoArrival - p.2.arrival_time ≤ TIME_HORIZON)

/-- Example fixture: a reservation of session `"a"` for route
`left -> right` with window `[0, 2]`, exits `[15, 17]`, at `time_ref = tr`. -/
def resFix (tr : ℚ) : Reservation := ⟨"a", tr, "left", "right", 0, 2, 15, 17, []⟩

/-- Example fixture: an already-reserved session holding `resFix tr`. -/
def sessReserved (tr : ℚ) : Session := ⟨0, 0, 30, true, some (resFix tr)⟩

/-- Example fixture: a connected, not yet reserved session. -/
def sessUnreserved : Session := ⟨0, 0, 30, false, none⟩

/-- Example fixture: an unreserved session with arrival time 95. -/
def sess95 : Session := ⟨0, 95, 125, false, none⟩

/-- Example fixture: a solver output with window `[0, 2]`, exits `[15, 17]`. -/
def resultFix : AnalysisResult := ⟨0, 2, 15, 17, []⟩

/-- Example fixture: a store holding one reserved session `"b"` whose
reservation starts at `time_ref = d` and carries an `N`-frame tube. -/
def tubeStore (N : ℕ) (d : ℚ) : Store :=
  [("b", ⟨0, 0, 30, true,
    some ⟨"b", d, "left", "right", 0, 2, 15, 17, List.replicate N onesFrame⟩⟩)]

/-! ## Helper lemmas about the store -/

theorem storeGet_storeSet_self (sid : String) (s : Session) :
    ∀ store : Store, storeGet sid (storeSet sid s store) = some s := by
  intro store
  induction store with
  | nil => simp [storeGet, storeSet]
  | cons p rest ih =>
    by_cases h : p.1 = sid
    · simp [storeGet, storeSet, h]
    · simp [storeGet, storeSet, h, ih]

theorem storeGet_storeSet_ne (sid k : String) (s : Session) (h : sid ≠ k) :
    ∀ store : Store, storeGet sid (storeSet k s store) = storeGet sid store := by
  intro store
  induction store with
  | nil => simp [storeGet, storeSet, Ne.symm h]
  | cons p rest ih =>
    by_cases hp : p.1 = k
    · simp [storeGet, storeSet, hp, Ne.symm h]
    · by_cases hs : p.1 = sid
      · simp [storeGet, storeSet, hp, hs, h]
      · simp [storeGet, storeSet, hp, hs, ih]

/-! ## Helper lemmas about the priority scan -/

theorem contenders_spec_cons (sid : String) (s : Session)
    (rest : List (String × Session)) (ego : String) (arr : ℚ) :
    contenders_spec ((sid, s) :: rest) ego arr
      = contenders_spec rest ego arr
        + (if sid ≠ ego ∧ s.reserved = false ∧ s.arrival_time ≤ arr
              ∧ arr - s.arrival_time ≤ TIME_HORIZON then 1 else 0) := by
  simp [contenders_spec, List.countP_cons]

theorem lrtScan_eq_count (ego : String) (arr : ℚ) :
    ∀ (l : List (String × Session)) (c : ℕ),
      (∀ p ∈ l, p.1 ≠ ego → p.2.reserved = true → ¬ arr < p.2.arrival_time) →
      lrtScan ego arr l c = some (c + contenders_spec l ego arr) := by
  intro l
  induction l with
  | nil => intro c _; simp [lrtScan, contenders_spec]
  | cons p rest ih =>
    obtain ⟨sid, s⟩ := p
    intro c hnv
    have hrest : ∀ q ∈ rest, q.1 ≠ ego → q.2.reserved = true → ¬ arr < q.2.arrival_time :=
      fun q hq => hnv q (List.mem_cons_of_mem _ hq)
    rw [contenders_spec_cons]
    simp only [lrtScan]
    by_cases h1 : sid = ego
    · rw [if_pos h1, ih c hrest, if_neg (by simp [h1])]
      simp
    · rw [if_neg h1]
      by_cases h2 : s.reserved
      · rw [if_pos h2]
        have hlt : ¬ 0 < s.arrival_time - arr := by
          have := hnv (sid, s) (List.mem_cons_self _ rest) h1 h2
          intro hc; exact this (by linarith)
        rw [if_neg hlt, ih c hrest, if_neg (by simp [h2])]
        simp
      · rw [if_neg h2]
        by_cases h3 : 0 < s.arrival_time - arr
        · rw [if_pos h3, ih c hrest, if_neg (by
            rintro ⟨-, -, ha, -⟩
            exact absurd ha (by linarith))]
          simp
        · rw [if_neg h3]
          by_cases h4 : TIME_HORIZON < -(s.arrival_time - arr)
          · rw [if_pos h4, ih c hrest, if_neg (by
              rintro ⟨-, -, -, hb⟩
              exact absurd hb (by linarith))]
            simp
          · rw [if_neg h4, ih (c + 1) hrest, if_pos ⟨h1, by simpa using h2,
              by linarith, by linarith⟩]
            simp only [Option.some.injEq]
            omega

/-! ## C2: the latest-reserve-time formula -/

/-- C2 (amended): when no other session is both reserved and arriving
strictly later than ego, server.py's `latest_reserve_time` returns
`egoArrival - COMPUTE_TIME * (contenders + 2)` — one compute slot per
higher-priority unreserved contender, one for ego, plus one extra
"heuristic" slot (server.py line 360) — while fake_server.py's version
returns `egoArrival - COMPUTE_TIME * (contenders + 1)`, the formula the
claim states. -/
theorem latest_reserve_time_formulas (store : Store) (ego : String) (arr now : ℚ)
    (hnv : ∀ p ∈ store, p.1 ≠ ego → p.2.reserved = true → ¬ arr < p.2.arrival_time) :
    latest_reserve_time store ego arr now
        = arr - COMPUTE_TIME * (contenders_spec store ego arr + 2)
    ∧ fake_latest_reserve_time store ego arr now
        = arr - COMPUTE_TIME * (contenders_spec store ego arr + 1) := by
  have hscan := lrtScan_eq_count ego arr store 0 hnv
  constructor
  · rw [latest_reserve_time, hscan]
    push_cast
    ring
  · rw [fake_latest_reserve_time, hscan]
    push_cast
    ring

/-- C2 witness: one unreserved contender with arrival 95 against ego
arrival 100 — the server deadline is `100 - 10 * 3 = 70`, the fake-server
deadline `100 - 10 * 2 = 80`. -/
theorem latest_reserve_time_formulas_witness :
    latest_reserve_time [("a", sess95)] "e" 100 0
        = 100 - COMPUTE_TIME * (contenders_spec [("a", sess95)] "e" 100 + 2)
    ∧ fake_latest_reserve_time [("a", sess95)] "e" 100 0
        = 100 - COMPUTE_TIME * (contenders_spec [("a", sess95)] "e" 100 + 1) :=
  latest_reserve_time_formulas [("a", sess95)] "e" 100 0 (by simp [sess95])

/-- C2 counterexample: with no other session at all (zero contenders,
no violation), server.py returns `100 - 10 * (0 + 2) = 80`, not the
claimed `100 - COMPUTE_TIME * (0 + 1) = 90`. -/
theorem latest_reserve_time_claim_counterexample :
    latest_reserve_time [] "ego" 100 0 = 80
    ∧ (100 : ℚ) - COMPUTE_TIME * ((contenders_spec [] "ego" 100 : ℕ) + 1) = 90
    ∧ (80 : ℚ) ≠ 90 := by
  refine ⟨by norm_num [latest_reserve_time, lrtScan, COMPUTE_TIME], ?_, by norm_num⟩
  norm_num [contenders_spec, COMPUTE_TIME]

/-! ## C8: the session reaper -/

/-- C8 (amended): a reaper tick at wall-clock time `w` snapshots
`now = floor(w)` (microseconds zeroed; arrivals and timeouts are
whole-second quantities in this model) and retains exactly the sessions
with `¬ session_timeout < now` — deletion requires the timeout to be
*strictly before* the truncated clock, so a session whose
`sessionTimeoutAt` equals the snapshot (or lies within the same second)
survives; in particular a sweep at `sessionTimeoutAt + 1ms` with a
whole-second `sessionTimeoutAt` removes nothing. -/
theorem clean_sessions_tmr_spec :
    (∀ (store : Store) (w : ℚ) (sid : String) (s : Session),
      (sid, s) ∈ clean_sessions_tmr store w ↔
        (sid, s) ∈ store ∧ ¬ s.session_timeout < (⌊w⌋ : ℚ))
    ∧ ∀ (store : Store) (sid : String) (s : Session) (T : ℤ),
        (sid, s) ∈ store → s.session_timeout = (T : ℚ) →
        (sid, s) ∈ clean_sessions_tmr store ((T : ℚ) + 1/1000) := by
  have hmem : ∀ (store : Store) (w : ℚ) (sid : String) (s : Session),
      (sid, s) ∈ clean_sessions_tmr store w ↔
        (sid, s) ∈ store ∧ ¬ s.session_timeout < (⌊w⌋ : ℚ) := by
    intro store w sid s
    simp [clean_sessions_tmr, List.mem_filter]
  refine ⟨hmem, ?_⟩
  intro store sid s T hmemS htimeout
  rw [hmem]
  refine ⟨hmemS, ?_⟩
  have hfloor : ⌊(T : ℚ) + 1/1000⌋ = T := by
    rw [add_comm, Int.floor_add_int]
    norm_num
  rw [htimeout, hfloor]
  exact lt_irrefl _

/-- C8 witness: a concrete sweep at `timeout + 1ms` retaining the session. -/
theorem clean_sessions_tmr_spec_witness :
    ("a", sessUnreserved) ∈
      clean_sessions_tmr [("a", sessUnreserved)] ((30 : ℤ) + 1/1000) :=
  clean_sessions_tmr_spec.2 [("a", sessUnreserved)] "a" sessUnreserved 30
    (by simp) (by norm_num [sessUnreserved])

/-- C8 counterexample: a session with `sessionTimeoutAt = 100` is retained
both by a sweep at wall time `100` (timeout equal to now, which the claim
says deletes) and by a sweep at `100 + 1ms` (the claim's scenario says it
is removed). -/
theorem clean_sessions_tmr_counterexample :
    clean_sessions_tmr [("a", ⟨0, 0, 100, false, none⟩)] 100
        = [("a", ⟨0, 0, 100, false, none⟩)]
    ∧ clean_sessions_tmr [("a", ⟨0, 0, 100, false, none⟩)] (100 + 1/1000)
        = [("a", ⟨0, 0, 100, false, none⟩)]
    ∧ ((100 : ℚ) ≤ 100 ∧ (100 : ℚ) ≤ 100 + 1/1000) := by
  have h1 : ⌊(100 : ℚ)⌋ = 100 := by norm_num
  have h2 : ⌊(100 : ℚ) + 1/1000⌋ = 100 := by norm_num [Int.floor_eq_iff]
  refine ⟨?_, ?_, by norm_num⟩
  · simp [clean_sessions_tmr, List.filter, h1]
  · simp only [clean_sessions_tmr, List.filter]
    norm_num [h2]

/-! ## Helper lemmas about reserve -/

theorem storeGet_add_reservation (store : Store) (sid : String) (r : Reservation)
    (k : String) :
    storeGet k (add_reservation store sid r)
      = if k = sid then
          (storeGet sid store).map fun t => { t with reservation := some r, reserved := true }
        else storeGet k store := by
  unfold add_reservation
  cases hg : storeGet sid store with
  | none => by_cases hk : k = sid <;> simp [hk, hg]
  | some t =>
    by_cases hk : k = sid
    · subst hk; simp [storeGet_storeSet_self, hg]
    · simp [hk, storeGet_storeSet_ne k sid _ hk]

/-- Every terminating `reserve_srv` call either fails leaving the store
untouched, or succeeds committing exactly `newReservation`/`newResp` with
the entry-window checks having passed. -/
theorem reserve_srv_cases (N : ℕ) (store : Store) (req : ReserveReq) (now : ℚ)
    (result : AnalysisResult) (out : Store × ReserveResp)
    (h : reserve_srv N store req now result = some out) :
    (out.2.success = false ∧ out.1 = store) ∨
    (out.2.success = true ∧
      (0 ≤ (align_entry_window req.time_ref req.earliest_entry req.latest_entry).2.2.1 ∧
        (align_entry_window req.time_ref req.earliest_entry req.latest_entry).2.2.1
          ≤ (align_entry_window req.time_ref req.earliest_entry req.latest_entry).2.2.2 ∧
        (align_entry_window req.time_ref req.earliest_entry req.latest_entry).2.2.2
          ≤ TIME_HORIZON) ∧
      0 < (newReservation req result).latest_entry - (newReservation req result).earliest_entry ∧
      out.1 = add_reservation store req.name (newReservation req result) ∧
      out.2 = newResp req result) := by
  simp only [reserve_srv] at h
  by_cases h1 : ¬ req.entry ∈ ENTRY_LOCATIONS
  · rw [if_pos h1] at h
    simp only [Option.some.injEq] at h; subst h; exact Or.inl ⟨rfl, rfl⟩
  rw [if_neg h1] at h
  by_cases h2 : ¬ req.exit ∈ EXIT_LOCATIONS
  · rw [if_pos h2] at h
    simp only [Option.some.injEq] at h; subst h; exact Or.inl ⟨rfl, rfl⟩
  rw [if_neg h2] at h
  by_cases h3 : ¬ (req.entry, req.exit) ∈ PERMITTED_ROUTES
  · rw [if_pos h3] at h
    simp only [Option.some.injEq] at h; subst h; exact Or.inl ⟨rfl, rfl⟩
  rw [if_neg h3] at h
  by_cases h4 : latest_reserve_time store req.name req.time_ref now < now
  · rw [if_pos h4] at h
    simp only [Option.some.injEq] at h; subst h; exact Or.inl ⟨rfl, rfl⟩
  rw [if_neg h4] at h
  simp only [reserve] at h
  by_cases g1 : ¬ (0 ≤ (align_entry_window req.time_ref req.earliest_entry req.latest_entry).2.2.1
      ∧ (align_entry_window req.time_ref req.earliest_entry req.latest_entry).2.2.1
          ≤ (align_entry_window req.time_ref req.earliest_entry req.latest_entry).2.2.2
      ∧ (align_entry_window req.time_ref req.earliest_entry req.latest_entry).2.2.2
          ≤ TIME_HORIZON)
  · rw [if_pos g1] at h
    simp only [Option.some.injEq] at h; subst h; exact Or.inl ⟨rfl, rfl⟩
  rw [if_neg g1] at h
  by_cases g2 : round1 (min ((align_entry_window req.time_ref req.earliest_entry
      req.latest_entry).2.2.2
        - (align_entry_window req.time_ref req.earliest_entry req.latest_entry).2.2.1)
      MAX_WINDOW_ENTRY) = 0
  · rw [if_pos g2] at h
    simp only [Option.some.injEq] at h; subst h; exact Or.inl ⟨rfl, rfl⟩
  rw [if_neg g2] at h
  cases hm : resolve_dangers N store
      (align_entry_window req.time_ref req.earliest_entry req.latest_entry).2.1 with
  | none => rw [hm] at h; cases h
  | some ds =>
    rw [hm] at h
    simp only at h
    by_cases g3 : ¬ 0 < (newReservation req result).latest_entry
        - (newReservation req result).earliest_entry
    · rw [if_pos (by simpa [newReservation] using g3)] at h
      simp only [Option.some.injEq] at h; subst h; exact Or.inl ⟨rfl, rfl⟩
    · rw [if_neg (by simpa [newReservation] using g3)] at h
      simp only [Option.some.injEq] at h; subst h
      push_neg at g1 g3
      exact Or.inr ⟨rfl, g1, g3, rfl, rfl⟩

/-! ## C3: monotonicity of the reserved flag -/

/-- C3 (amended): `notify` and `reserve` never clear a set `reserved`
flag, the reaper only deletes entries, and `connect` leaves every *other*
session untouched — but `connect` on an id already in the store replaces
that session wholesale (`sessions_add` is a plain dict assignment), which
resets its `reserved` flag to false without deleting the id. -/
theorem reserved_monotonic_amended :
    (∀ (store : Store) (u : String) (a n : ℚ) (sid : String) (s : Session),
        storeGet sid store = some s → s.reserved = true →
        ∃ s', storeGet sid (notify_srv store u a n).1 = some s' ∧ s'.reserved = true)
    ∧ (∀ (N : ℕ) (store : Store) (req : ReserveReq) (now : ℚ) (result : AnalysisResult)
          (out : Store × ReserveResp),
        reserve_srv N store req now result = some out →
        ∀ (sid : String) (s : Session), storeGet sid store = some s → s.reserved = true →
        ∃ s', storeGet sid out.1 = some s' ∧ s'.reserved = true)
    ∧ (∀ (store : Store) (w : ℚ) (p : String × Session),
        p ∈ clean_sessions_tmr store w → p ∈ store)
    ∧ (∀ (store : Store) (u i : String) (a n : ℚ) (sid : String),
        sid ≠ u → storeGet sid (connect_srv store u i a n).1 = storeGet sid store) := by
  refine ⟨?_, ?_, ?_, ?_⟩
  · intro store u a n sid s hg hr
    by_cases hl : latest_reserve_time store u a n < n
    · refine ⟨s, ?_, hr⟩; simp [notify_srv, hl, hg]
    · cases hgu : storeGet u store with
      | none => refine ⟨s, ?_, hr⟩; simp [notify_srv, hl, hgu, hg]
      | some t =>
        by_cases ht : t.reserved
        · refine ⟨s, ?_, hr⟩; simp [notify_srv, hl, hgu, ht, hg]
        · by_cases hsu : sid = u
          · subst hsu
            rw [hg] at hgu
            cases hgu
            exact absurd hr (by simpa using ht)
          · refine ⟨s, ?_, hr⟩
            have hstep : (notify_srv store u a n).1
                = storeSet u
                    { t with
                      latest_reserve_time := latest_reserve_time store u a n
                      arrival_time := a
                      session_timeout := a + SESSION_TIMEOUT } store := by
              simp [notify_srv, hl, hgu, ht]
            rw [hstep, storeGet_storeSet_ne sid u _ hsu]
            exact hg
  · intro N store req now result out h sid s hg hr
    rcases reserve_srv_cases N store req now result out h with ⟨-, hst⟩ | ⟨-, -, -, hst, -⟩
    · exact ⟨s, by rw [hst, hg], hr⟩
    · rw [hst, storeGet_add_reservation]
      by_cases hk : sid = req.name
      · subst hk
        exact ⟨_, by rw [if_pos rfl, hg, Option.map_some'], rfl⟩
      · exact ⟨s, by rw [if_neg hk, hg], hr⟩
  · intro store w p hp
    exact List.mem_of_mem_filter hp
  · intro store u i a n sid hne
    by_cases hl : latest_reserve_time store u a n < n
    · simp [connect_srv, hl]
    · simp [connect_srv, hl, storeGet_storeSet_ne sid u _ hne]

/-- C3 witness: notify on a reserved session keeps it reserved. -/
theorem reserved_monotonic_amended_witness :
    ∃ s', storeGet "a" (notify_srv [("a", sessReserved 50)] "a" 100 0).1 = some s'
      ∧ s'.reserved = true :=
  reserved_monotonic_amended.1 [("a", sessReserved 50)] "a" 100 0 "a" (sessReserved 50)
    (by simp [storeGet]) (by simp [sessReserved])

/-- C3 counterexample: `connect` with the id of an existing *reserved*
session succeeds and overwrites it — the id is still present afterwards
(no deletion) but its `reserved` flag is false again. -/
theorem connect_unreserves_counterexample :
    (storeGet "a" [("a", sessReserved 50)]).map Session.reserved = some true
    ∧ (connect_srv [("a", sessReserved 50)] "a" "its_x" 100 0).2.transit_time = TRANSIT_TIME
    ∧ (connect_srv [("a", sessReserved 50)] "a" "its_x" 100 0).1
        = [("a", ⟨80, 100, 130, false, none⟩)]
    ∧ (storeGet "a" (connect_srv [("a", sessReserved 50)] "a" "its_x" 100 0).1).map
        Session.reserved = some false := by
  have hc : (connect_srv [("a", sessReserved 50)] "a" "its_x" 100 0)
      = ([("a", ⟨80, 100, 130, false, none⟩)], ⟨"its_x", TRANSIT_TIME, 80⟩) := by
    norm_num [connect_srv, latest_reserve_time, lrtScan, COMPUTE_TIME, SESSION_TIMEOUT,
      storeSet, sessReserved]
  rw [hc]
  refine ⟨by simp [storeGet, sessReserved], rfl, rfl, by simp [storeGet]⟩

/-! ## C5: session identity after connect -/

/-- C5 (amended): a successful connect stores the session under the
caller-supplied `usr_id` — not under the fresh `its_id` it returns — so it
is `usr_id` that later notify/reserve calls must use; a notify with
`usr_id` never hits the "Unconnected user" rejection (`-3000`). -/
theorem connect_stores_under_usr_id (store : Store) (usr its : String) (arr now : ℚ)
    (h : ¬ latest_reserve_time store usr arr now < now) :
    (connect_srv store usr its arr now).1
        = storeSet usr ⟨latest_reserve_time store usr arr now, arr,
            arr + SESSION_TIMEOUT, false, none⟩ store
    ∧ storeGet usr (connect_srv store usr its arr now).1
        = some ⟨latest_reserve_time store usr arr now, arr, arr + SESSION_TIMEOUT, false, none⟩
    ∧ (connect_srv store usr its arr now).2.its_id = its
    ∧ ∀ a' n', (notify_srv (connect_srv store usr its arr now).1 usr a' n').2.transit_time
        ≠ -3000 := by
  have h1 : (connect_srv store usr its arr now).1
      = storeSet usr ⟨latest_reserve_time store usr arr now, arr,
          arr + SESSION_TIMEOUT, false, none⟩ store := by
    simp [connect_srv, h]
  refine ⟨h1, ?_, by simp [connect_srv, h], ?_⟩
  · rw [h1, storeGet_storeSet_self]
  · intro a' n'
    by_cases hl : latest_reserve_time (connect_srv store usr its arr now).1 usr a' n' < n'
    · norm_num [notify_srv, hl]
    · have hget : storeGet usr (connect_srv store usr its arr now).1
          = some ⟨latest_reserve_time store usr arr now, arr,
              arr + SESSION_TIMEOUT, false, none⟩ := by
        rw [h1, storeGet_storeSet_self]
      norm_num [notify_srv, hl, hget, TRANSIT_TIME]

/-- C5 witness: concrete successful connect; session found under the
usr id, notify with the usr id is not rejected as unknown. -/
theorem connect_stores_under_usr_id_witness :
    storeGet "usr" (connect_srv [] "usr" "its_ab12" 100 0).1
        = some ⟨latest_reserve_time [] "usr" 100 0, 100, 100 + SESSION_TIMEOUT, false, none⟩
    ∧ (notify_srv (connect_srv [] "usr" "its_ab12" 100 0).1 "usr" 100 0).2.transit_time
        ≠ -3000 :=
  ⟨(connect_stores_under_usr_id [] "usr" "its_ab12" 100 0
      (by norm_num [latest_reserve_time, lrtScan, COMPUTE_TIME])).2.1,
   (connect_stores_under_usr_id [] "usr" "its_ab12" 100 0
      (by norm_num [latest_reserve_time, lrtScan, COMPUTE_TIME])).2.2.2 100 0⟩

/-- C5 counterexample: the fresh id `its_ab12` returned by connect is
*not* the key the session is stored under — a lookup with it finds
nothing, and a subsequent notify with it fails as "Unconnected user"
(`-3000`), contradicting the claim that the returned fresh id identifies
the session. -/
theorem connect_its_id_not_key_counterexample :
    (connect_srv [] "usr" "its_ab12" 100 0).2.its_id = "its_ab12"
    ∧ (connect_srv [] "usr" "its_ab12" 100 0).2.transit_time = TRANSIT_TIME
    ∧ storeGet "its_ab12" (connect_srv [] "usr" "its_ab12" 100 0).1 = none
    ∧ (notify_srv (connect_srv [] "usr" "its_ab12" 100 0).1 "its_ab12" 100 0).2.transit_time
        = -3000 := by
  have hc : connect_srv [] "usr" "its_ab12" 100 0
      = ([("usr", ⟨80, 100, 130, false, none⟩)], ⟨"its_ab12", TRANSIT_TIME, 80⟩) := by
    norm_num [connect_srv, latest_reserve_time, lrtScan, COMPUTE_TIME, SESSION_TIMEOUT,
      storeSet]
  rw [hc]
  refine ⟨rfl, rfl, by simp [storeGet], ?_⟩
  norm_num [notify_srv, latest_reserve_time, lrtScan, COMPUTE_TIME, TIME_HORIZON, storeGet,
    (by decide : ¬ ("usr" : String) = "its_ab12")]

/-! ## C4: unknown session ids -/

/-- C4: the claim says reserve with an unknown session id fails
`NotFound`.  The code only *logs* the unknown id (server.py lines
538-539, no `return`), so with a valid route and deadline the call runs
to completion and even reports success while storing nothing; notify, by
contrast, does reject unknown ids (`-3000`).  This theorem evaluates both
handlers at the failing input. -/
theorem reserve_unknown_session_reports_success :
    reserve_srv 76 [] ⟨"ghost", "left", "right", 100, 0, 2⟩ 0 ⟨0, 2, 15, 17, []⟩
        = some ([], ⟨true, .ok, 100, 0, 2, 15, 17⟩)
    ∧ (notify_srv [] "ghost" 100 0).2.transit_time = -3000 := by
  constructor
  · norm_num [reserve_srv, reserve, latest_reserve_time, lrtScan,
      (by decide : ("left" : String) ∈ ENTRY_LOCATIONS),
      (by decide : ("right" : String) ∈ EXIT_LOCATIONS),
      (by decide : ("left", "right") ∈ PERMITTED_ROUTES), COMPUTE_TIME, TIME_HORIZON,
      TIME_STEP, MAX_WINDOW_ENTRY, align_entry_window, round1, round_half_even, pymod,
      resolve_dangers, get_reservations, resolveLoop, spliceDanger, add_reservation, storeGet,
      Int.fract, round_eq]
  · norm_num [notify_srv, latest_reserve_time, lrtScan, COMPUTE_TIME, storeGet]

/-! ## C1: repeated reserve on a reserved session -/

/-- C1 (amended): `reserve_srv` has no AlreadyReserved path: whatever the
session's current `reserved` flag, a call that passes the route and
deadline checks and whose analysis succeeds *overwrites* the stored
reservation with the newly computed one and reports success. -/
theorem reserve_srv_overwrites_on_success (N : ℕ) (store : Store) (req : ReserveReq)
    (now : ℚ) (result : AnalysisResult) (out : Store × ReserveResp)
    (h : reserve_srv N store req now result = some out) (hs : out.2.success = true)
    (s : Session) (hg : storeGet req.name store = some s) :
    storeGet req.name out.1
      = some { s with reservation := some (newReservation req result), reserved := true }
    ∧ out.2 = newResp req result := by
  rcases reserve_srv_cases N store req now result out h with ⟨hf, -⟩ | ⟨-, -, -, hst, hresp⟩
  · rw [hf] at hs; cases hs
  · refine ⟨?_, hresp⟩
    rw [hst, storeGet_add_reservation, if_pos rfl, hg, Option.map_some']

/-- C1 witness: the amended theorem applied at the counterexample input. -/
theorem reserve_srv_overwrites_on_success_witness :
    storeGet "a"
        ([("a", { sessReserved 50 with
            reservation := some (newReservation ⟨"a", "left", "right", 100, 0, 2⟩ resultFix),
            reserved := true })] : Store)
      = some { sessReserved 50 with
          reservation := some (newReservation ⟨"a", "left", "right", 100, 0, 2⟩ resultFix),
          reserved := true }
    ∧ (⟨true, .ok, 100, 0, 2, 15, 17⟩ : ReserveResp)
        = newResp ⟨"a", "left", "right", 100, 0, 2⟩ resultFix :=
  reserve_srv_overwrites_on_success 76 [("a", sessReserved 50)]
    ⟨"a", "left", "right", 100, 0, 2⟩ 0 resultFix
    ([("a", { sessReserved 50 with
        reservation := some (newReservation ⟨"a", "left", "right", 100, 0, 2⟩ resultFix),
        reserved := true })], ⟨true, .ok, 100, 0, 2, 15, 17⟩)
    (by norm_num [reserve_srv, reserve, latest_reserve_time, lrtScan,
      (by decide : ("left" : String) ∈ ENTRY_LOCATIONS),
      (by decide : ("right" : String) ∈ EXIT_LOCATIONS),
      (by decide : ("left", "right") ∈ PERMITTED_ROUTES), COMPUTE_TIME, TIME_HORIZON,
      TIME_STEP, MAX_WINDOW_ENTRY, align_entry_window, round1, round_half_even, pymod,
      resolve_dangers, get_reservations, resolveLoop, spliceDanger, add_reservation, storeGet, storeSet,
      Int.fract, round_eq, sessReserved, resFix, resultFix, newReservation, newResp])
    rfl (sessReserved 50) (by simp [storeGet])

/-- C1 counterexample: session `"a"` is already reserved with
`time_ref = 50`; a second reserve call succeeds (no AlreadyReserved
failure) and replaces the stored reservation (`time_ref` becomes 100). -/
theorem second_reserve_not_rejected_counterexample :
    (storeGet "a" [("a", sessReserved 50)]).map Session.reserved = some true
    ∧ ((storeGet "a" [("a", sessReserved 50)]).bind Session.reservation).map
        Reservation.time_ref = some 50
    ∧ reserve_srv 76 [("a", sessReserved 50)] ⟨"a", "left", "right", 100, 0, 2⟩ 0 resultFix
        = some ([("a", ⟨0, 0, 30, true, some ⟨"a", 100, "left", "right", 0, 2, 15, 17, []⟩⟩)],
                ⟨true, .ok, 100, 0, 2, 15, 17⟩)
    ∧ (50 : ℚ) ≠ 100 := by
  refine ⟨by simp [storeGet, sessReserved], by simp [storeGet, sessReserved, resFix], ?_,
    by norm_num⟩
  norm_num [reserve_srv, reserve, latest_reserve_time, lrtScan,
    (by decide : ("left" : String) ∈ ENTRY_LOCATIONS),
    (by decide : ("right" : String) ∈ EXIT_LOCATIONS),
    (by decide : ("left", "right") ∈ PERMITTED_ROUTES), COMPUTE_TIME, TIME_HORIZON,
    TIME_STEP, MAX_WINDOW_ENTRY, align_entry_window, round1, round_half_even, pymod,
    resolve_dangers, get_reservations, resolveLoop, spliceDanger, add_reservation, storeGet, storeSet,
    Int.fract, round_eq, sessReserved, resFix, resultFix]

/-! ## C6: the stored-window invariant -/

/-- C6 (amended): every reservation committed by server.py's reserve
satisfies `0 ≤ earliestEntry ≤ latestEntry ≤ TIME_HORIZON`, and
fake_server.py's reserve additionally guarantees
`earliestExit = earliestEntry + TRANSIT_TIME` and
`latestExit = latestEntry + TRANSIT_TIME`; in server.py the exit bounds
come unchecked from the external analysis engine and need not satisfy the
claimed equations. -/
theorem reservation_window_invariants :
    (∀ (N : ℕ) (store : Store) (req : ReserveReq) (now : ℚ) (result : AnalysisResult)
        (out : Store × ReserveResp),
      reserve_srv N store req now result = some out → out.2.success = true →
      ∀ s r, storeGet req.name out.1 = some s → s.reservation = some r →
        0 ≤ r.earliest_entry ∧ r.earliest_entry ≤ r.latest_entry
          ∧ r.latest_entry ≤ TIME_HORIZON)
    ∧ ∀ (tr a b t ee le eex lex : ℚ),
        fake_reserve_window tr a b = some (t, ee, le, eex, lex) →
        0 ≤ ee ∧ ee ≤ le ∧ le ≤ TIME_HORIZON
          ∧ eex = ee + TRANSIT_TIME ∧ lex = le + TRANSIT_TIME := by
  constructor
  · intro N store req now result out h hs s r hgs hrr
    rcases reserve_srv_cases N store req now result out h with ⟨hf, -⟩ | ⟨-, hchain, hpos, hst, -⟩
    · rw [hf] at hs; cases hs
    · rw [hst, storeGet_add_reservation, if_pos rfl] at hgs
      cases hgo : storeGet req.name store with
      | none => rw [hgo] at hgs; cases hgs
      | some t =>
        rw [hgo, Option.map_some'] at hgs
        cases hgs
        simp only at hrr
        cases hrr
        obtain ⟨hc1, hc2, hc3⟩ := hchain
        simp only [newReservation] at hpos ⊢
        refine ⟨le_trans hc1 (le_max_left _ _), by linarith, le_trans (min_le_left _ _) hc3⟩
  · intro tr a b t ee le eex lex h
    simp only [fake_reserve_window] at h
    split_ifs at h with g1 g2 g3
    obtain ⟨rfl, rfl, rfl, rfl, rfl⟩ : (align_entry_window tr a b).2.1 = t
        ∧ (align_entry_window tr a b).2.2.1 = ee ∧ (align_entry_window tr a b).2.2.2 = le
        ∧ (align_entry_window tr a b).2.2.1 + TRANSIT_TIME = eex
        ∧ (align_entry_window tr a b).2.2.2 + TRANSIT_TIME = lex := by
      simpa using h
    exact ⟨g1.1, g1.2.1, g1.2.2, rfl, rfl⟩

/-- C6 witness: the amended theorem applied to the concrete successful
server reserve of C1 and to a concrete fake-server window. -/
theorem reservation_window_invariants_witness :
    ((0 : ℚ) ≤ 0 ∧ (0 : ℚ) ≤ 2 ∧ (2 : ℚ) ≤ TIME_HORIZON)
    ∧ ((0 : ℚ) ≤ 0 ∧ (0 : ℚ) ≤ 2 ∧ (2 : ℚ) ≤ TIME_HORIZON
        ∧ (15 : ℚ) = 0 + TRANSIT_TIME ∧ (17 : ℚ) = 2 + TRANSIT_TIME) :=
  ⟨by
    have := reservation_window_invariants.1 76 [("a", sessReserved 50)]
      ⟨"a", "left", "right", 100, 0, 2⟩ 0 resultFix
      ([("a", ⟨0, 0, 30, true, some ⟨"a", 100, "left", "right", 0, 2, 15, 17, []⟩⟩)],
       ⟨true, .ok, 100, 0, 2, 15, 17⟩)
      (by norm_num [reserve_srv, reserve, latest_reserve_time, lrtScan,
        (by decide : ("left" : String) ∈ ENTRY_LOCATIONS),
        (by decide : ("right" : String) ∈ EXIT_LOCATIONS),
        (by decide : ("left", "right") ∈ PERMITTED_ROUTES), COMPUTE_TIME, TIME_HORIZON,
        TIME_STEP, MAX_WINDOW_ENTRY, align_entry_window, round1, round_half_even, pymod,
        resolve_dangers, get_reservations, resolveLoop, spliceDanger, add_reservation, storeGet, storeSet,
        Int.fract, round_eq, sessReserved, resFix, resultFix]) rfl
      ⟨0, 0, 30, true, some ⟨"a", 100, "left", "right", 0, 2, 15, 17, []⟩⟩
      ⟨"a", 100, "left", "right", 0, 2, 15, 17, []⟩ (by simp [storeGet]) rfl
    simpa using this,
   by
    have := reservation_window_invariants.2 100 0 2 100 0 2 15 17
      (by norm_num [fake_reserve_window, align_entry_window, round1, round_half_even,
        pymod, Int.fract, round_eq, TIME_HORIZON, TIME_STEP, MAX_WINDOW_ENTRY,
        TRANSIT_TIME])
    simpa using this⟩

/-- C6 counterexample: the engine may return exit bounds unrelated to the
entry bounds; with `earliest_exit = 999` the reserve succeeds and stores
`earliestExit = 999 ≠ earliestEntry + TRANSIT_TIME = 15`. -/
theorem stored_exit_not_transit_counterexample :
    reserve_srv 76 [("a", sessUnreserved)] ⟨"a", "left", "right", 100, 0, 2⟩ 0
        ⟨0, 2, 999, 1000, []⟩
      = some ([("a", ⟨0, 0, 30, true, some ⟨"a", 100, "left", "right", 0, 2, 999, 1000, []⟩⟩)],
              ⟨true, .ok, 100, 0, 2, 999, 1000⟩)
    ∧ (999 : ℚ) ≠ 0 + TRANSIT_TIME := by
  constructor
  · norm_num [reserve_srv, reserve, latest_reserve_time, lrtScan,
      (by decide : ("left" : String) ∈ ENTRY_LOCATIONS),
      (by decide : ("right" : String) ∈ EXIT_LOCATIONS),
      (by decide : ("left", "right") ∈ PERMITTED_ROUTES), COMPUTE_TIME, TIME_HORIZON,
      TIME_STEP, MAX_WINDOW_ENTRY, align_entry_window, round1, round_half_even, pymod,
      resolve_dangers, get_reservations, resolveLoop, spliceDanger, add_reservation, storeGet, storeSet,
      Int.fract, round_eq, sessUnreserved]
  · norm_num [TRANSIT_TIME]

/-! ## C9: resolve_dangers on non-overlapping stores -/

theorem resolveLoop_mem (N : ℕ) (t : ℚ) :
    ∀ (l : List (String × Reservation)) (out : List (String × List GridFrame)),
      resolveLoop N t l = some out →
      ∀ q ∈ out, ∃ r, (q.1, r) ∈ l ∧
        0 < min (t + TIME_HORIZON) (r.time_ref + TIME_HORIZON) - max t r.time_ref := by
  intro l
  induction l with
  | nil =>
    intro out h q hq
    simp only [resolveLoop, Option.some.injEq] at h
    subst h
    cases hq
  | cons p rest ih =>
    obtain ⟨sid, r0⟩ := p
    intro out h q hq
    simp only [resolveLoop] at h
    by_cases hov : ¬ 0 < min (t + TIME_HORIZON) (r0.time_ref + TIME_HORIZON) - max t r0.time_ref
    · rw [if_pos hov] at h
      obtain ⟨r, hr, hpos⟩ := ih out h q hq
      exact ⟨r, List.mem_cons_of_mem _ hr, hpos⟩
    · rw [if_neg hov] at h
      cases hsp : spliceDanger N t r0 with
      | none => rw [hsp] at h; cases h
      | some d =>
        rw [hsp] at h
        simp only at h
        rw [Option.map_eq_some'] at h
        obtain ⟨tail, htail, rfl⟩ := h
        rcases List.mem_cons.mp hq with rfl | hqtail
        · exact ⟨r0, List.mem_cons_self _ _, not_not.mp hov⟩
        · obtain ⟨r, hr, hpos⟩ := ih tail htail q hqtail
          exact ⟨r, List.mem_cons_of_mem _ hr, hpos⟩

theorem get_reservations_mem (store : Store) (q : String × Reservation)
    (hq : q ∈ get_reservations store) :
    ∃ s, (q.1, s) ∈ store ∧ s.reserved = true ∧ s.reservation = some q.2 := by
  simp only [get_reservations, List.mem_filterMap] at hq
  obtain ⟨⟨k, s⟩, hks, hf⟩ := hq
  by_cases hres : s.reserved
  · rw [if_pos hres] at hf
    rw [Option.map_eq_some'] at hf
    obtain ⟨r, hr, hq'⟩ := hf
    cases hq'
    exact ⟨s, hks, hres, hr⟩
  · rw [if_neg hres] at hf
    cases hf

theorem store_nodup_unique (store : Store)
    (hnd : (store.map Prod.fst).Nodup) (sid : String) (s s' : Session)
    (h1 : (sid, s) ∈ store) (h2 : (sid, s') ∈ store) : s = s' := by
  induction store with
  | nil => cases h1
  | cons p rest ih =>
    rw [List.map_cons, List.nodup_cons] at hnd
    rcases List.mem_cons.mp h1 with rfl | h1'
    · rcases List.mem_cons.mp h2 with h2h | h2'
      · exact (congrArg Prod.snd h2h).symm
      · exact absurd (List.mem_map_of_mem Prod.fst h2') (by simpa using hnd.1)
    · rcases List.mem_cons.mp h2 with rfl | h2'
      · exact absurd (List.mem_map_of_mem Prod.fst h1') (by simpa using hnd.1)
      · exact ih hnd.2 h1' h2'

/-- C9: `resolve_dangers` on a store with zero reserved sessions returns
the empty map, and (for a store with python-dict-unique keys) a reserved
session whose window overlap with the candidate window is zero or
negative contributes no entry to the result. -/
theorem resolve_dangers_empty_and_overlap :
    (∀ (N : ℕ) (store : Store) (t : ℚ),
        (∀ p ∈ store, p.2.reserved = false) → resolve_dangers N store t = some [])
    ∧ ∀ (N : ℕ) (store : Store) (t : ℚ) (out : List (String × List GridFrame))
        (sid : String) (s : Session) (r : Reservation),
        (store.map Prod.fst).Nodup →
        (sid, s) ∈ store → s.reserved = true → s.reservation = some r →
        min (t + TIME_HORIZON) (r.time_ref + TIME_HORIZON) - max t r.time_ref ≤ 0 →
        resolve_dangers N store t = some out →
        ∀ d, (sid, d) ∉ out := by
  constructor
  · intro N store t hall
    have hempty : get_reservations store = [] := by
      rw [get_reservations, List.filterMap_eq_nil_iff]
      intro p hp
      rw [if_neg (by simp [hall p hp])]
    rw [resolve_dangers, hempty]
    rfl
  · intro N store t out sid s r hnd hmem hres hresv hov hout d hd
    obtain ⟨r', hr', hpos⟩ :=
      resolveLoop_mem N t (get_reservations store) out hout (sid, d) hd
    obtain ⟨s', hs', hres', hresv'⟩ := get_reservations_mem store (sid, r') hr'
    have : s' = s := store_nodup_unique store hnd sid s' s hs' hmem
    subst this
    rw [hresv] at hresv'
    cases hresv'
    exact absurd hpos (by linarith)

/-- C9 witness: the empty store yields the empty map, and a reserved
session 35 s in the past of the candidate window (overlap −35 ≤ 0)
contributes no entry. -/
theorem resolve_dangers_empty_and_overlap_witness :
    resolve_dangers 76 ([] : Store) 0 = some []
    ∧ ¬ ("a", ([] : List GridFrame)) ∈ ([] : List (String × List GridFrame)) :=
  ⟨resolve_dangers_empty_and_overlap.1 76 [] 0 (by simp),
   resolve_dangers_empty_and_overlap.2 76 [("a", sessReserved 50)] 100 [] "a"
     (sessReserved 50) (resFix 50) (by simp) (by simp) (by simp [sessReserved])
     (by simp [sessReserved]) (by norm_num [resFix, TIME_HORIZON])
     (by norm_num [resolve_dangers, get_reservations, resolveLoop, sessReserved, resFix,
       TIME_HORIZON]) []⟩

/-! ## C7: the alignment step -/

theorem round_half_even_intCast (n : ℤ) : round_half_even (n : ℚ) = n := by
  unfold round_half_even
  rw [Int.fract_intCast, if_neg (by norm_num), round_intCast]

theorem round1_int_div_ten (n : ℤ) : round1 ((n : ℚ) / 10) = (n : ℚ) / 10 := by
  unfold round1
  rw [show (10 : ℚ) * ((n : ℚ) / 10) = (n : ℚ) by ring, round_half_even_intCast]

theorem round_half_even_nonneg (x : ℚ) (hx : 0 ≤ x) : 0 ≤ round_half_even x := by
  unfold round_half_even
  split_ifs
  · have : (0 : ℤ) ≤ round (x / 2) := by
      rw [round_eq]
      exact Int.floor_nonneg.mpr (by linarith)
    omega
  · rw [round_eq]
    exact Int.floor_nonneg.mpr (by linarith)

/-- The arithmetic heart of the alignment: for a clamped entry bound
`m/10` (tenths of a second, `m ≥ 0`), the computed offset is nonnegative
and the *shifted entry bound* `m/10 - offset` is a nonnegative integer
multiple of `TIME_STEP` — i.e. the offset aligns `earliestEntry`, not
`timeRef`, to the discretization grid. -/
theorem align_offset_grid (m : ℤ) (hm : 0 ≤ m) :
    0 ≤ round1 ((⌊(m : ℚ) / 10⌋ : ℚ) + pymod ((m : ℚ) / 10) TIME_STEP)
    ∧ ∃ k : ℕ, (m : ℚ) / 10 - round1 ((⌊(m : ℚ) / 10⌋ : ℚ) + pymod ((m : ℚ) / 10) TIME_STEP)
        = (k : ℚ) * TIME_STEP := by
  obtain ⟨q, r, hqr, hr10⟩ : ∃ q r : ℕ, m.toNat = 10 * q + r ∧ r < 10 :=
    ⟨m.toNat / 10, m.toNat % 10, by omega, by omega⟩
  have hmq : (m : ℚ) = 10 * q + r := by
    have h1 : ((m.toNat : ℤ) : ℚ) = (m : ℚ) := by
      rw [Int.toNat_of_nonneg hm]
    rw [← h1, hqr]
    push_cast
    ring
  have hr0 : (0 : ℚ) ≤ r := by positivity
  have hrlt : (r : ℚ) < 10 := by exact_mod_cast hr10
  have hfloor10 : ⌊(m : ℚ) / 10⌋ = (q : ℤ) := by
    rw [Int.floor_eq_iff]
    constructor
    · rw [hmq]; push_cast; linarith
    · rw [hmq]; push_cast; linarith
  have hdiv : ((m : ℚ) / 10) / TIME_STEP = (m : ℚ) / 2 := by
    rw [TIME_STEP]; ring
  rcases Nat.even_or_odd r with ⟨u, hu⟩ | ⟨u, hu⟩
  · -- r = 2u: the entry bound is already on the grid, offset = q
    have hfloor2 : ⌊(m : ℚ) / 2⌋ = (5 * q + u : ℤ) := by
      rw [Int.floor_eq_iff]
      constructor
      · rw [hmq, hu]; push_cast; linarith
      · rw [hmq, hu]; push_cast; linarith
    have hpymod : pymod ((m : ℚ) / 10) TIME_STEP = (u : ℚ) / 5 - (u : ℚ) / 5 := by
      rw [pymod, hdiv, hfloor2, TIME_STEP, hmq, hu]
      push_cast
      ring
    have harg : (⌊(m : ℚ) / 10⌋ : ℚ) + pymod ((m : ℚ) / 10) TIME_STEP
        = ((10 * q : ℤ) : ℚ) / 10 := by
      rw [hfloor10, hpymod]
      push_cast
      ring
    rw [harg, round1_int_div_ten]
    constructor
    · positivity
    · refine ⟨u, ?_⟩
      rw [hmq, hu, TIME_STEP]
      push_cast
      ring
  · -- r = 2u + 1: one tenth above the grid, offset = q + 1/10
    have hfloor2 : ⌊(m : ℚ) / 2⌋ = (5 * q + u : ℤ) := by
      rw [Int.floor_eq_iff]
      constructor
      · rw [hmq, hu]; push_cast; linarith
      · rw [hmq, hu]; push_cast; linarith
    have hpymod : pymod ((m : ℚ) / 10) TIME_STEP = 1 / 10 := by
      rw [pymod, hdiv, hfloor2, TIME_STEP, hmq, hu]
      push_cast
      ring
    have harg : (⌊(m : ℚ) / 10⌋ : ℚ) + pymod ((m : ℚ) / 10) TIME_STEP
        = ((10 * q + 1 : ℤ) : ℚ) / 10 := by
      rw [hfloor10, hpymod]
      push_cast
      ring
    rw [harg, round1_int_div_ten]
    constructor
    · positivity
    · refine ⟨u, ?_⟩
      rw [hmq, hu, TIME_STEP]
      push_cast
      ring

/-- C7 (amended): the alignment step of `reserve` computes
`offset = round1(floor(ee) + ee mod TIME_STEP)` from the clamped
`earliestEntry` alone; the offset is nonnegative, `timeRef` is shifted
forward by exactly it, both entry bounds decrease by exactly it, and it is
the *new earliestEntry* — not `timeRef + offset` — that lands on the
`TIME_STEP` grid (a nonnegative integer multiple of `TIME_STEP`).  If the
chain `0 ≤ earliestEntry ≤ latestEntry ≤ TIME_HORIZON` fails afterwards,
a reserve call that passed the route and deadline checks fails
(`InvalidWindow`) with the store untouched. -/
theorem align_entry_window_spec :
    (∀ tr a b : ℚ,
      0 ≤ (align_entry_window tr a b).1
      ∧ (align_entry_window tr a b).2.1 = tr + (align_entry_window tr a b).1
      ∧ (align_entry_window tr a b).2.2.1 = round1 (max a 0) - (align_entry_window tr a b).1
      ∧ (align_entry_window tr a b).2.2.2
          = round1 (min b TIME_HORIZON) - (align_entry_window tr a b).1
      ∧ ∃ k : ℕ, (align_entry_window tr a b).2.2.1 = (k : ℚ) * TIME_STEP)
    ∧ ∀ (N : ℕ) (store : Store) (req : ReserveReq) (now : ℚ) (result : AnalysisResult),
        req.entry ∈ ENTRY_LOCATIONS → req.exit ∈ EXIT_LOCATIONS →
        (req.entry, req.exit) ∈ PERMITTED_ROUTES →
        ¬ latest_reserve_time store req.name req.time_ref now < now →
        ¬ (0 ≤ (align_entry_window req.time_ref req.earliest_entry req.latest_entry).2.2.1
            ∧ (align_entry_window req.time_ref req.earliest_entry req.latest_entry).2.2.1
                ≤ (align_entry_window req.time_ref req.earliest_entry req.latest_entry).2.2.2
            ∧ (align_entry_window req.time_ref req.earliest_entry req.latest_entry).2.2.2
                ≤ TIME_HORIZON) →
        reserve_srv N store req now result = some (store, failResp .invalidOffset) := by
  constructor
  · intro tr a b
    have hm : 0 ≤ round_half_even (10 * max a 0) :=
      round_half_even_nonneg _ (by positivity)
    have hee0 : round1 (max a 0) = ((round_half_even (10 * max a 0) : ℤ) : ℚ) / 10 := rfl
    have hkey := align_offset_grid (round_half_even (10 * max a 0)) hm
    refine ⟨?_, rfl, rfl, rfl, ?_⟩
    · show 0 ≤ round1 ((⌊round1 (max a 0)⌋ : ℚ) + pymod (round1 (max a 0)) TIME_STEP)
      rw [hee0]
      exact hkey.1
    · show ∃ k : ℕ, round1 (max a 0)
          - round1 ((⌊round1 (max a 0)⌋ : ℚ) + pymod (round1 (max a 0)) TIME_STEP)
          = (k : ℚ) * TIME_STEP
      rw [hee0]
      exact hkey.2
  · intro N store req now result hE hX hR hD hC
    unfold reserve_srv
    rw [if_neg (not_not_intro hE), if_neg (not_not_intro hX), if_neg (not_not_intro hR),
      if_neg hD]
    simp only [reserve]
    rw [if_pos hC]

/-- C7 witness: request `earliest_entry = 5, latest_entry = 1` passes the
route and deadline checks, the aligned window collapses
(`latestEntry − offset = −4 < 0`), and the call fails with the store
untouched. -/
theorem align_entry_window_spec_witness :
    reserve_srv 76 [("a", sessUnreserved)] ⟨"a", "left", "right", 100, 5, 1⟩ 0 resultFix
      = some ([("a", sessUnreserved)], failResp .invalidOffset) :=
  align_entry_window_spec.2 76 [("a", sessUnreserved)] ⟨"a", "left", "right", 100, 5, 1⟩ 0
    resultFix (by decide) (by decide) (by decide)
    (by norm_num [latest_reserve_time, lrtScan, COMPUTE_TIME])
    (by norm_num [align_entry_window, round1, round_half_even, pymod, Int.fract, round_eq,
      TIME_STEP, TIME_HORIZON])

/-- C7 counterexample: a reserve call with `timeRef = 100.1` s and
`earliestEntry = 0` passes all checks with `offset = 0`; the shifted
`timeRef + offset = 100.1` is *not* on a `TIME_STEP = 0.2` boundary, so
the claim that the offset makes `timeRef + offset` land on a grid
boundary is false (the code aligns the entry bound instead). -/
theorem align_not_time_step_boundary_counterexample :
    (reserve_srv 76 [("a", sessUnreserved)] ⟨"a", "left", "right", 1001/10, 0, 2⟩ 0
        resultFix).map (fun out => (out.2.success, out.2.time_ref))
      = some (true, 1001/10)
    ∧ (align_entry_window (1001/10) 0 2).1 = 0
    ∧ ¬ ∃ k : ℤ, (1001/10 : ℚ) + (align_entry_window (1001/10) 0 2).1
        = (k : ℚ) * TIME_STEP := by
  have h0 : (align_entry_window (1001/10) 0 2).1 = 0 := by
    norm_num [align_entry_window, round1, round_half_even, pymod, Int.fract, round_eq,
      TIME_STEP, TIME_HORIZON]
  refine ⟨?_, h0, ?_⟩
  · have hev : reserve_srv 76 [("a", sessUnreserved)] ⟨"a", "left", "right", 1001/10, 0, 2⟩ 0
        resultFix
        = some ([("a", ⟨0, 0, 30, true,
              some ⟨"a", 1001/10, "left", "right", 0, 2, 15, 17, []⟩⟩)],
            ⟨true, .ok, 1001/10, 0, 2, 15, 17⟩) := by
      norm_num [reserve_srv, reserve, latest_reserve_time, lrtScan,
        (by decide : ("left" : String) ∈ ENTRY_LOCATIONS),
        (by decide : ("right" : String) ∈ EXIT_LOCATIONS),
        (by decide : ("left", "right") ∈ PERMITTED_ROUTES), COMPUTE_TIME, TIME_HORIZON,
        TIME_STEP, MAX_WINDOW_ENTRY, align_entry_window, round1, round_half_even, pymod,
        resolve_dangers, get_reservations, resolveLoop, spliceDanger, add_reservation,
        storeGet, storeSet, Int.fract, round_eq, sessUnreserved, resultFix]
    rw [hev]
    rfl
  · rintro ⟨k, hk⟩
    rw [h0, add_zero, TIME_STEP] at hk
    have h2 : (2 * k : ℚ) = 1001 := by
      field_simp at hk
      linarith
    have h3 : (2 * k : ℤ) = 1001 := by exact_mod_cast h2
    omega

/-! ## C10: shape-conformance of the danger splice -/

theorem sliceAssignTail_isSome (dst src : List GridFrame) (i : ℕ) (h2 : 2 ≤ src.length) :
    (sliceAssignTail dst src i).isSome ↔ src.length = dst.length - min i dst.length := by
  rcases src with _ | ⟨a, rest⟩
  · simp at h2
  rcases rest with _ | ⟨b, rest2⟩
  · simp at h2
  unfold sliceAssignTail
  by_cases hlen : (a :: b :: rest2).length = dst.length - min i dst.length
  · rw [if_pos hlen]
    simpa using hlen
  · rw [if_neg hlen]
    simpa using hlen

theorem sliceAssignHead_isSome_of_eq (dst src : List GridFrame) (j : ℕ)
    (h : src.length = min j dst.length) : (sliceAssignHead dst src j).isSome := by
  unfold sliceAssignHead
  rw [if_pos h]
  rfl

/-- `⌈y⌉ = ⌊y⌋ + 1` exactly when `y` is not an integer. -/
theorem ceil_eq_floor_add_one_iff (y : ℚ) :
    ⌈y⌉ = ⌊y⌋ + 1 ↔ ¬ ∃ k : ℤ, y = (k : ℚ) := by
  constructor
  · rintro h ⟨k, rfl⟩
    rw [Int.ceil_intCast, Int.floor_intCast] at h
    omega
  · intro h
    have h1 := Int.floor_le_ceil y
    have h2 := Int.ceil_le_floor_add_one y
    rcases lt_or_eq_of_le h1 with hlt | heq
    · omega
    · exfalso
      refine h ⟨⌊y⌋, le_antisymm ?_ (Int.floor_le y)⟩
      calc y ≤ (⌈y⌉ : ℚ) := Int.le_ceil y
        _ = (⌊y⌋ : ℚ) := by exact_mod_cast heq.symm

/-- Evaluation of `resolve_dangers` on a one-reservation store whose
window starts `d` seconds *after* the candidate window (the
`time_ref < earliest_overlap` splice case). -/
theorem resolve_dangers_tubeStore_after (d : ℚ) (h0 : 0 < d) (h15 : d < 15) :
    resolve_dangers 76 (tubeStore 76 d) 0
      = (sliceAssignTail (List.replicate 76 onesFrame)
          ((List.replicate 76 onesFrame).take (⌈(15 - d) / TIME_STEP⌉).toNat)
          (⌈d / TIME_STEP⌉).toNat).map (fun dg => [("b", dg)]) := by
  have hget : get_reservations (tubeStore 76 d)
      = [("b", ⟨"b", d, "left", "right", 0, 2, 15, 17, List.replicate 76 onesFrame⟩)] := rfl
  rw [resolve_dangers, hget]
  have hmax : max (0 : ℚ) d = d := max_eq_right h0.le
  have hmin : min ((0 : ℚ) + TIME_HORIZON) (d + TIME_HORIZON) = 15 := by
    rw [TIME_HORIZON, zero_add, min_eq_left (by linarith)]
  have hov : ¬ ¬ (0 : ℚ) < min ((0 : ℚ) + TIME_HORIZON) (d + TIME_HORIZON) - max 0 d := by
    rw [hmax, hmin]
    push_neg
    linarith
  simp only [resolveLoop, hov, if_neg, not_false_eq_true, reduceIte]
  have hsd : spliceDanger 76 0 ⟨"b", d, "left", "right", 0, 2, 15, 17,
      List.replicate 76 onesFrame⟩
      = sliceAssignTail (List.replicate 76 onesFrame)
          ((List.replicate 76 onesFrame).take (⌈(15 - d) / TIME_STEP⌉).toNat)
          (⌈d / TIME_STEP⌉).toNat := by
    simp only [spliceDanger]
    rw [if_pos (by rw [hmax]; exact h0)]
    rw [hmax, hmin, sub_zero]
  rw [hsd]
  cases hsp : sliceAssignTail (List.replicate 76 onesFrame)
      ((List.replicate 76 onesFrame).take (⌈(15 - d) / TIME_STEP⌉).toNat)
      (⌈d / TIME_STEP⌉).toNat with
  | none => rfl
  | some dg => rfl

/-- Evaluation of `resolve_dangers` on a one-reservation store whose
window starts `d` seconds *before* the candidate window (the other splice
case). -/
theorem resolve_dangers_tubeStore_before (d : ℚ) (h0 : 0 ≤ d) (h15 : d < 15) :
    resolve_dangers 76 (tubeStore 76 0) d
      = (sliceAssignHead (List.replicate 76 onesFrame)
          (((List.replicate 76 onesFrame).drop (⌈d / TIME_STEP⌉).toNat).take
            (⌈(15 - d) / TIME_STEP⌉).toNat)
          (⌈(15 - d) / TIME_STEP⌉).toNat).map (fun dg => [("b", dg)]) := by
  have hget : get_reservations (tubeStore 76 0)
      = [("b", ⟨"b", 0, "left", "right", 0, 2, 15, 17, List.replicate 76 onesFrame⟩)] := rfl
  rw [resolve_dangers, hget]
  have hmax : max d (0 : ℚ) = d := max_eq_left h0
  have hmin : min (d + TIME_HORIZON) ((0 : ℚ) + TIME_HORIZON) = 15 := by
    rw [TIME_HORIZON, zero_add, min_eq_right (by linarith)]
  have hov : ¬ ¬ (0 : ℚ) < min (d + TIME_HORIZON) ((0 : ℚ) + TIME_HORIZON) - max d 0 := by
    rw [hmax, hmin]
    push_neg
    linarith
  simp only [resolveLoop, hov, if_neg, not_false_eq_true, reduceIte]
  have hsd : spliceDanger 76 d ⟨"b", 0, "left", "right", 0, 2, 15, 17,
      List.replicate 76 onesFrame⟩
      = sliceAssignHead (List.replicate 76 onesFrame)
          (((List.replicate 76 onesFrame).drop (⌈d / TIME_STEP⌉).toNat).take
            (⌈(15 - d) / TIME_STEP⌉).toNat)
          (⌈(15 - d) / TIME_STEP⌉).toNat := by
    simp only [spliceDanger]
    rw [if_neg (by rw [hmax]; exact lt_irrefl d)]
    rw [hmax, hmin, sub_zero]
  rw [hsd]
  cases hsp : sliceAssignHead (List.replicate 76 onesFrame)
      (((List.replicate 76 onesFrame).drop (⌈d / TIME_STEP⌉).toNat).take
        (⌈(15 - d) / TIME_STEP⌉).toNat)
      (⌈(15 - d) / TIME_STEP⌉).toNat with
  | none => rfl
  | some dg => rfl

theorem option_isSome_map {α β : Type} (o : Option α) (f : α → β) :
    (o.map f).isSome = o.isSome := by
  cases o <;> rfl

/-- C10 (amended): with a 76-frame timeline and 76-frame tubes, the splice
of `resolve_dangers` in the case `timeRef < earliestOverlap` is
shape-conformant *iff* the reservations' `timeRef` offset `d` is not an
exact multiple of `TIME_STEP` (for offsets up to 14.6 s, below the
broadcast corner): at exact grid multiples `danger[i:]` has one more frame
than `tube[:j]` and NumPy raises.  The other splice case
(`timeRef ≥ earliestOverlap`) is always shape-conformant. -/
theorem resolve_dangers_splice_shape :
    (∀ d : ℚ, 0 < d → d ≤ 73/5 →
      ((resolve_dangers 76 (tubeStore 76 d) 0).isSome ↔
        ¬ ∃ k : ℤ, d = (k : ℚ) * TIME_STEP))
    ∧ ∀ d : ℚ, 0 ≤ d → d < 15 → (resolve_dangers 76 (tubeStore 76 0) d).isSome := by
  constructor
  · intro d h0 h73
    have h15 : d < 15 := by linarith
    rw [resolve_dangers_tubeStore_after d h0 h15, option_isSome_map]
    have hds : d / TIME_STEP = 5 * d := by rw [TIME_STEP]; ring
    have hds2 : (15 - d) / TIME_STEP = -(5 * d) + ((75 : ℤ) : ℚ) := by
      rw [TIME_STEP]; push_cast; ring
    have hceil : ⌈d / TIME_STEP⌉ = ⌈5 * d⌉ := by rw [hds]
    have hceil2 : ⌈(15 - d) / TIME_STEP⌉ = 75 - ⌊5 * d⌋ := by
      rw [hds2, Int.ceil_add_int, Int.ceil_neg]
      omega
    have hF0 : 0 ≤ ⌊5 * d⌋ := Int.floor_nonneg.mpr (by positivity)
    have hF73 : ⌊5 * d⌋ ≤ 73 := by
      calc ⌊5 * d⌋ ≤ ⌊(73 : ℚ)⌋ := Int.floor_le_floor (by linarith)
        _ = 73 := by norm_num
    have hC1 : 1 ≤ ⌈5 * d⌉ := Int.ceil_pos.mpr (by positivity)
    have hC73 : ⌈5 * d⌉ ≤ 73 := Int.ceil_le.mpr (by push_cast; linarith)
    have hFC : ⌊5 * d⌋ ≤ ⌈5 * d⌉ := Int.floor_le_ceil _
    have hCF1 : ⌈5 * d⌉ ≤ ⌊5 * d⌋ + 1 := Int.ceil_le_floor_add_one _
    rw [hceil, hceil2]
    rw [sliceAssignTail_isSome _ _ _ (by simp; omega)]
    simp only [List.length_take, List.length_replicate]
    have hiff : (∃ k : ℤ, d = (k : ℚ) * TIME_STEP) ↔ ∃ k : ℤ, 5 * d = (k : ℚ) := by
      constructor
      · rintro ⟨k, rfl⟩
        exact ⟨k, by rw [TIME_STEP]; ring⟩
      · rintro ⟨k, hk⟩
        exact ⟨k, by rw [TIME_STEP]; linarith⟩
    constructor
    · intro hEq hex
      have hCF : ⌈5 * d⌉ = ⌊5 * d⌋ := by
        obtain ⟨k, hk⟩ := hiff.mp hex
        rw [hk, Int.ceil_intCast, Int.floor_intCast]
      rw [Nat.min_eq_left (by omega), Nat.min_eq_left (by omega)] at hEq
      omega
    · intro hnex
      have hC : ⌈5 * d⌉ = ⌊5 * d⌋ + 1 :=
        (ceil_eq_floor_add_one_iff (5 * d)).mpr fun hex => hnex (hiff.mpr hex)
      rw [Nat.min_eq_left (by omega), Nat.min_eq_left (by omega)]
      omega
  · intro d h0 h15
    rw [resolve_dangers_tubeStore_before d h0 h15, option_isSome_map]
    have hds : d / TIME_STEP = 5 * d := by rw [TIME_STEP]; ring
    have hds2 : (15 - d) / TIME_STEP = -(5 * d) + ((75 : ℤ) : ℚ) := by
      rw [TIME_STEP]; push_cast; ring
    have hceil : ⌈d / TIME_STEP⌉ = ⌈5 * d⌉ := by rw [hds]
    have hceil2 : ⌈(15 - d) / TIME_STEP⌉ = 75 - ⌊5 * d⌋ := by
      rw [hds2, Int.ceil_add_int, Int.ceil_neg]
      omega
    have hF0 : 0 ≤ ⌊5 * d⌋ := Int.floor_nonneg.mpr (by positivity)
    have hF74 : ⌊5 * d⌋ < 75 := Int.floor_lt.mpr (by push_cast; linarith)
    have hC0 : 0 ≤ ⌈5 * d⌉ := Int.ceil_nonneg (by positivity)
    have hCF1 : ⌈5 * d⌉ ≤ ⌊5 * d⌋ + 1 := Int.ceil_le_floor_add_one _
    rw [hceil, hceil2]
    apply sliceAssignHead_isSome_of_eq
    simp only [List.length_take, List.length_drop, List.length_replicate]
    rw [Nat.min_eq_left (by omega), Nat.min_eq_left (by omega)]

/-- C10 witness: the conformant splice case applied at offset 0. -/
theorem resolve_dangers_splice_shape_witness :
    (resolve_dangers 76 (tubeStore 76 0) 0).isSome :=
  resolve_dangers_splice_shape.2 0 le_rfl (by norm_num)

/-- C10 counterexample: a reserved session whose `timeRef` is exactly one
`TIME_STEP` (0.2 s) after the candidate's, with a tube of the timeline's
76 frames and positive overlap 14.8 s: the splice destination
`danger[i:]` has 75 frames but the source `tube[:j]` only 74, so the
slice assignment raises (`none`) instead of being shape-conformant. -/
theorem splice_shape_counterexample :
    resolve_dangers 76 (tubeStore 76 (1/5)) 0 = none
    ∧ (0 : ℚ) < min ((0 : ℚ) + TIME_HORIZON) (1/5 + TIME_HORIZON) - max 0 (1/5)
    ∧ (tubeStore 76 (1/5)).map (fun p => p.2.reservation.map fun r => r.pass4.length)
        = [some 76]
    ∧ ((List.replicate 76 onesFrame).drop (⌈((1/5 : ℚ)) / TIME_STEP⌉).toNat).length = 75
    ∧ ((List.replicate 76 onesFrame : List GridFrame).take
        (⌈((15 : ℚ) - 1/5) / TIME_STEP⌉).toNat).length = 74
    ∧ (75 : ℕ) ≠ 74 := by
  have hc1 : ⌈((1/5 : ℚ)) / TIME_STEP⌉ = 1 := by
    rw [show ((1/5 : ℚ)) / TIME_STEP = ((1 : ℤ) : ℚ) by rw [TIME_STEP]; norm_num,
      Int.ceil_intCast]
  have hc74 : ⌈((15 : ℚ) - 1/5) / TIME_STEP⌉ = 74 := by
    rw [show ((15 : ℚ) - 1/5) / TIME_STEP = ((74 : ℤ) : ℚ) by rw [TIME_STEP]; norm_num,
      Int.ceil_intCast]
  refine ⟨?_, by norm_num [TIME_HORIZON], by simp [tubeStore], ?_, ?_, by norm_num⟩
  · rw [resolve_dangers_tubeStore_after (1/5) (by norm_num) (by norm_num), hc74, hc1]
    have hnone : sliceAssignTail (List.replicate 76 onesFrame)
        ((List.replicate 76 onesFrame).take ((74 : ℤ)).toNat) ((1 : ℤ)).toNat = none := by
      rw [← Option.not_isSome_iff_eq_none,
        sliceAssignTail_isSome _ _ _ (by simp)]
      simp
    rw [hnone]
    rfl
  · rw [hc1]
    simp
  · rw [hc74]
    simp

end LTMS
